import Mathlib

/-!
Verification of the analysis-and-triage engine of the healthcare symptom
checker backend (`backend/app.py`, class `SymptomAnalyzer`).

The engine is embedded shallowly:

* JSON values produced by `json.loads` are modelled by the inductive `JValue`
  (objects as ordered key/value lists, matching Python dict lookup).
* `str.lower()` is modelled by `pyLower` (ASCII case folding, which agrees
  with Python on the ASCII inputs the keyword scans care about), and the
  Python substring test `needle in hay` by `pyContains`.
* The external Gemini generation call is modelled by its outcome
  (`GenOutcome`): either an exception, or raw text given by the result of
  `json.loads` on it (`none` standing for `JSONDecodeError`).
* `datetime.utcnow().isoformat()` is modelled by an explicit clock argument
  `now` threaded through every result constructor, and
  `os.getenv("GEMINI_MODEL", ...)` by an explicit `env` argument.
* Python exceptions inside `_parse_llm_response` are modelled by `Except PErr`:
  `ValueError`/`KeyError` (and `JSONDecodeError`, handled before validation)
  are caught inside `_parse_llm_response` itself; `TypeError` (membership test
  on a non-iterable) and `AttributeError` (`.get` on a non-dict) escape to the
  catch-all handler in `analyze_symptoms`.
-/

/-- A parsed JSON value, the result of Python `json.loads`. -/
inductive JValue where
  | jnull
  | jbool (b : Bool)
  | jnum (n : Int)
  | jstr (s : String)
  | jarr (xs : List JValue)
  | jobj (kvs : List (String × JValue))

/-- Python `str.lower()`, restricted to ASCII case folding. -/
def pyLower (s : String) : String := String.mk (s.data.map Char.toLower)

/-- Whether the first character list is a prefix of the second. -/
def beginsWith : List Char → List Char → Bool
  | [], _ => true
  | _ :: _, [] => false
  | a :: as, b :: bs => a == b && beginsWith as bs

/-- Whether `needle` occurs as a contiguous sublist of `hay`. -/
def hasSub (needle hay : List Char) : Bool :=
  beginsWith needle hay ||
    match hay with
    | [] => false
    | _ :: t => hasSub needle t

/-- Python substring membership `needle in hay` on strings. -/
def pyContains (hay needle : String) : Bool := hasSub needle.data hay.data

/-- The patient input record received by the analyzer (`data` dict).
`symptoms` is guaranteed present by the HTTP boundary; the remaining
fields are arbitrary optional JSON values. -/
structure PatientInput where
  symptoms : String
  age : Option JValue := none
  gender : Option JValue := none
  duration : Option JValue := none
  severity : Option JValue := none
  session_id : Option JValue := none

/-- The analysis result dict returned by `analyze_symptoms` and by every
fallback helper.  `note` is `none` exactly when the dict has no `note` key
(the model-validated path). -/
structure AnalysisResult where
  timestamp : String
  input : PatientInput
  conditions : JValue
  urgency : String
  recommendations : JValue
  disclaimer : Bool
  note : Option String
  ai_model : String

/-- Length of a JSON array, `none` on non-arrays. -/
def jlen : JValue → Option Nat
  | .jarr xs => some xs.length
  | _ => none

/-- Emergency keyword list from `_fallback_analysis` (rule 1). -/
def emergency_keywords : List String :=
  ["chest pain", "chest pressure", "difficulty breathing", "shortness of breath",
   "severe bleeding", "stroke", "can\x27t move arm", "face drooping",
   "seizure", "convulsion", "unconscious", "passed out", "fainted",
   "severe headache", "worst headache", "coughing blood", "vomiting blood",
   "severe abdominal pain", "severe stomach pain"]

/-- Gastro keyword list from `_fallback_analysis` (rule 2, first set). -/
def gastro_keywords : List String := ["vomiting", "diarrhea", "loose motion"]

/-- Dehydration keyword list from `_fallback_analysis` (rule 2, second set). -/
def dehydration_keywords : List String := ["weakness", "dizzy", "faint"]

/-- Severe-sign keyword list inlined in `_gastro_safety_fallback`. -/
def severe_sign_keywords : List String :=
  ["can\x27t keep down", "blood", "black stools", "fainting", "severe weakness", "no urine"]

/-- The single fixed condition of `_extreme_emergency_fallback`. -/
def extreme_condition : JValue :=
  .jobj [("name", .jstr "⚠️ IMMEDIATE MEDICAL ATTENTION REQUIRED"),
         ("probability", .jstr "N/A"),
         ("description", .jstr "Your symptoms indicate a potentially serious, life-threatening condition that requires immediate professional evaluation."),
         ("severity", .jstr "serious")]

/-- The six fixed recommendations of `_extreme_emergency_fallback`. -/
def extreme_recommendations : List String :=
  ["🚨 Call emergency services (911/112) immediately",
   "🏥 Go to the nearest emergency room",
   "❌ Do NOT wait - seek help NOW",
   "📞 If alone, call someone to help you",
   "⏱️ Note when symptoms started",
   "💊 Bring list of current medications if possible"]

/-- `_extreme_emergency_fallback` from the source. -/
def extreme_emergency_fallback (data : PatientInput) (now : String) : AnalysisResult :=
  { timestamp := now
    input := data
    conditions := .jarr [extreme_condition]
    urgency := "urgent"
    recommendations := .jarr (extreme_recommendations.map JValue.jstr)
    disclaimer := true
    note := some "AI analysis unavailable - Extreme Emergency response activated"
    ai_model := "Fallback System (Extreme)" }

/-- The four fixed conditions of `_gastro_safety_fallback`. -/
def gastro_conditions : List JValue :=
  [.jobj [("name", .jstr "Dehydration (Critical Risk)"),
          ("probability", .jstr "High"),
          ("description", .jstr "Significant fluid and electrolyte loss from persistent vomiting/diarrhea, leading to weakness and dizziness. Requires immediate focus on rehydration."),
          ("severity", .jstr "serious")],
   .jobj [("name", .jstr "Viral Gastroenteritis (\x27Stomach Flu\x27)"),
          ("probability", .jstr "Moderate"),
          ("description", .jstr "Common viral infection of the digestive tract causing vomiting and diarrhea, often resolving within a few days."),
          ("severity", .jstr "moderate")],
   .jobj [("name", .jstr "Food Poisoning (Bacterial or Toxin-related)"),
          ("probability", .jstr "Moderate"),
          ("description", .jstr "Illness caused by consuming contaminated food or water. Symptoms often start quickly and can be intense."),
          ("severity", .jstr "moderate")],
   .jobj [("name", .jstr "Traveler\x27s Diarrhea (if recent travel)"),
          ("probability", .jstr "Moderate"),
          ("description", .jstr "A form of gastroenteritis usually caused by bacteria, common after traveling to areas with different sanitation practices."),
          ("severity", .jstr "mild")]]

/-- The seven fixed recommendations of `_gastro_safety_fallback`. -/
def gastro_recommendations : List String :=
  ["Sip, Don\x27t Gulp: Drink small amounts of clear fluids (water, ORS) frequently, even if you can only keep down a few sips.",
   "Electrolytes are Key: Use Oral Rehydration Solutions (ORS) over plain water or high-sugar sports drinks.",
   "Rest: Get plenty of rest to allow your body to recover.",
   "Eat Bland Foods: When vomiting stops, start slowly with bland, easy-to-digest foods (like Bananas, Rice, Applesauce, Toast).",
   "Avoid: Fruit juice, soda, coffee, alcohol, and fatty/spicy foods.",
   "🚨 **See a Doctor Immediately if:** persistent dizziness/fainting, no urine for 8+ hours, blood in stool/vomit, or inability to keep down liquids for 24 hours.",
   "📞 Consult a healthcare provider if vomiting or diarrhea lasts more than 48 hours."]

/-- `_gastro_safety_fallback` from the source: fixed content, with urgency
computed by a secondary severe-sign keyword scan. -/
def gastro_safety_fallback (data : PatientInput) (now : String) : AnalysisResult :=
  let input_symptoms := pyLower data.symptoms
  let is_severe := severe_sign_keywords.any (fun k => pyContains input_symptoms k)
  let urgency_level := if is_severe then "urgent" else "soon"
  { timestamp := now
    input := data
    conditions := .jarr gastro_conditions
    urgency := urgency_level
    recommendations := .jarr (gastro_recommendations.map JValue.jstr)
    disclaimer := true
    note := some ("Hardcoded Safety Response (Gastro/Dehydration) - Urgency set to: " ++ urgency_level)
    ai_model := "Fallback System (Gastro)" }

/-- The single fixed condition of `_safe_routine_fallback`. -/
def routine_condition : JValue :=
  .jobj [("name", .jstr "Professional Medical Evaluation Needed"),
         ("probability", .jstr "N/A"),
         ("description", .jstr "Your symptoms require in-person evaluation by a qualified healthcare provider for accurate assessment."),
         ("severity", .jstr "unknown")]

/-- The six fixed recommendations of `_safe_routine_fallback`. -/
def routine_recommendations : List String :=
  ["📅 Schedule an appointment with your primary care physician",
   "📝 Write down all your symptoms in detail before the appointment",
   "⏰ Note when symptoms started and how they have changed",
   "💊 List all medications and supplements you are currently taking",
   "📊 Monitor symptoms and record any changes",
   "🚨 Seek immediate care if symptoms suddenly worsen or become severe"]

/-- `_safe_routine_fallback` from the source. -/
def safe_routine_fallback (data : PatientInput) (now : String) : AnalysisResult :=
  { timestamp := now
    input := data
    conditions := .jarr [routine_condition]
    urgency := "soon"
    recommendations := .jarr (routine_recommendations.map JValue.jstr)
    disclaimer := true
    note := some "AI analysis temporarily unavailable - General routine advice provided"
    ai_model := "Fallback System (General)" }

/-- `_fallback_analysis` from the source: rule 1 (emergency keywords), then
rule 2 (gastro AND dehydration keywords), then the default routine variant. -/
def fallback_analysis (data : PatientInput) (now : String) : AnalysisResult :=
  let symptoms_lower := pyLower data.symptoms
  if emergency_keywords.any (fun k => pyContains symptoms_lower k) then
    extreme_emergency_fallback data now
  else if gastro_keywords.any (fun k => pyContains symptoms_lower k) &&
          dehydration_keywords.any (fun k => pyContains symptoms_lower k) then
    gastro_safety_fallback data now
  else
    safe_routine_fallback data now

/-- Python exceptions arising inside `_parse_llm_response`.  `valueError` and
`keyError` are in the function's own `except` clause; `typeError` and
`attributeError` are not, and escape to the catch-all in `analyze_symptoms`. -/
inductive PErr where
  | valueError (msg : String)
  | keyError
  | typeError
  | attributeError
deriving DecidableEq

/-- First-match lookup in a JSON object's key/value list (Python dict access). -/
def lookupJ (kvs : List (String × JValue)) (k : String) : Option JValue :=
  match kvs with
  | [] => none
  | (k', v) :: rest => if k' == k then some v else lookupJ rest k

/-- Python string equality between a JSON value and a string literal
(`==` between a non-`str` and a `str` is `False`, never an error). -/
def jstrEq (v : JValue) (s : String) : Bool :=
  match v with
  | .jstr t => t == s
  | _ => false

/-- Python membership `key in v`: key test for dicts, element test for lists,
substring test for strings, `TypeError` for non-iterables. -/
def pyIn (key : String) (v : JValue) : Except PErr Bool :=
  match v with
  | .jobj kvs => .ok (kvs.any (fun p => p.fst == key))
  | .jarr xs => .ok (xs.any (fun x => jstrEq x key))
  | .jstr s => .ok (pyContains s key)
  | _ => .error .typeError

/-- Short-circuiting `all(key in v for key in ks)`. -/
def allKeysIn : List String → JValue → Except PErr Bool
  | [], _ => .ok true
  | k :: ks, v =>
    match pyIn k v with
    | .error e => .error e
    | .ok true => allKeysIn ks v
    | .ok false => .ok false

/-- The three required top-level fields of a model response. -/
def topLevelKeys : List String := ["conditions", "urgency", "recommendations"]

/-- The four required sub-fields of each condition entry. -/
def conditionKeys : List String := ["name", "probability", "description", "severity"]

/-- Message of the `ValueError` raised when a top-level field is absent. -/
def missingFieldsMsg : String := "Missing required top-level fields in AI response structure"

/-- Message of the `ValueError` raised when a condition entry is malformed. -/
def invalidCondMsg : String := "Invalid condition format (Missing sub-keys)"

/-- The per-condition loop of `_parse_llm_response`: raises `ValueError` at the
first entry missing a required sub-field, `TypeError` at a non-iterable entry. -/
def checkConditions : List JValue → Except PErr Unit
  | [] => .ok ()
  | c :: cs =>
    match allKeysIn conditionKeys c with
    | .error e => .error e
    | .ok true => checkConditions cs
    | .ok false => .error (.valueError invalidCondMsg)

/-- The guarded per-condition check: it runs only when the `conditions` value
is a non-empty list (`isinstance(..., list) and len(...) > 0`). -/
def condCheckStep : Option JValue → Except PErr Unit
  | some (.jarr (c :: cs)) => checkConditions (c :: cs)
  | _ => .ok ()

/-- The urgency safety check: an out-of-enum (or non-string, or absent)
urgency value is replaced by `routine`. -/
def coerceUrgency (v : Option JValue) : String :=
  match v with
  | some (.jstr s) => if s == "urgent" || s == "soon" || s == "routine" then s else "routine"
  | _ => "routine"

/-- Whether the looked-up urgency value is one of the three enum strings. -/
def isValidUrgency (v : Option JValue) : Bool :=
  match v with
  | some (.jstr s) => s == "urgent" || s == "soon" || s == "routine"
  | _ => false

/-- Whether a JSON value is a non-empty array. -/
def isNonemptyArr : JValue → Bool
  | .jarr (_ :: _) => true
  | _ => false

/-- The model-validated analysis dict assembled at the end of
`_parse_llm_response`; `env` is `os.getenv("GEMINI_MODEL", "Google Gemini")`. -/
def mkModelResult (kvs : List (String × JValue)) (data : PatientInput)
    (now env : String) : AnalysisResult :=
  { timestamp := now
    input := data
    conditions := (lookupJ kvs "conditions").getD (.jarr [])
    urgency := coerceUrgency (lookupJ kvs "urgency")
    recommendations := (lookupJ kvs "recommendations").getD (.jarr [])
    disclaimer := true
    note := none
    ai_model := env }

/-- The `try` block of `_parse_llm_response` after `json.loads` succeeded:
top-level field check, guarded per-condition check, urgency coercion, and
result assembly.  A non-dict response that passes the membership test fails
with `AttributeError` at `parsed.get`. -/
def tryValidate (parsed : JValue) (data : PatientInput) (now env : String) :
    Except PErr AnalysisResult :=
  match allKeysIn topLevelKeys parsed with
  | .error e => .error e
  | .ok false => .error (.valueError missingFieldsMsg)
  | .ok true =>
    match parsed with
    | .jobj kvs =>
      match condCheckStep (lookupJ kvs "conditions") with
      | .error e => .error e
      | .ok _ => .ok (mkModelResult kvs data now env)
    | _ => .error .attributeError

/-- `_parse_llm_response`, taking the `json.loads` result of the raw response
(`none` = `JSONDecodeError`).  `JSONDecodeError`, `ValueError` and `KeyError`
are caught here and converted to `_fallback_analysis`; other exceptions
propagate. -/
def parse_llm_response (parsedResponse : Option JValue) (data : PatientInput)
    (now env : String) : Except PErr AnalysisResult :=
  match parsedResponse with
  | none => .ok (fallback_analysis data now)
  | some parsed =>
    match tryValidate parsed data now env with
    | .ok r => .ok r
    | .error (.valueError _) => .ok (fallback_analysis data now)
    | .error .keyError => .ok (fallback_analysis data now)
    | .error e => .error e

/-- Outcome of the structured generation call: an exception, or raw response
text represented by its `json.loads` result. -/
inductive GenOutcome where
  | failure (msg : String)
  | success (parsed : Option JValue)

/-- `analyze_symptoms`: the whole generation-and-parse attempt sits in one
`try` whose catch-all converts every exception into `_fallback_analysis`. -/
def analyze_symptoms (outcome : GenOutcome) (data : PatientInput)
    (now env : String) : AnalysisResult :=
  match outcome with
  | .failure _ => fallback_analysis data now
  | .success raw =>
    match parse_llm_response raw data now env with
    | .ok r => r
    | .error _ => fallback_analysis data now

/-- Field-wise agreement of two analysis results everywhere except the
`timestamp` field. -/
def eqExceptTimestamp (r1 r2 : AnalysisResult) : Prop :=
  r1.input = r2.input ∧ r1.conditions = r2.conditions ∧ r1.urgency = r2.urgency ∧
  r1.recommendations = r2.recommendations ∧ r1.disclaimer = r2.disclaimer ∧
  r1.note = r2.note ∧ r1.ai_model = r2.ai_model

/-- A concrete structurally valid model response carrying a single condition
and a single recommendation. -/
def oneCondResponse : List (String × JValue) :=
  [("conditions", JValue.jarr [JValue.jobj
      [("name", JValue.jstr "Common Cold"), ("probability", JValue.jstr "High"),
       ("description", JValue.jstr "A viral infection."),
       ("severity", JValue.jstr "mild")]]),
   ("urgency", JValue.jstr "routine"),
   ("recommendations", JValue.jarr [JValue.jstr "rest"])]

/-- On a JSON object, the short-circuiting key scan computes `List.all`. -/
theorem allKeysIn_jobj (ks : List String) (kvs : List (String × JValue)) :
    allKeysIn ks (.jobj kvs) = .ok (ks.all (fun k => kvs.any (fun p => p.fst == k))) := by
  induction ks with
  | nil => rfl
  | cons k ks ih =>
    by_cases h : kvs.any (fun p => p.fst == k) = true
    · simp [allKeysIn, pyIn, h, ih]
    · simp [allKeysIn, pyIn, h]

/-- The membership test fails only with `TypeError`. -/
theorem pyIn_error (k : String) (v : JValue) (e : PErr) (h : pyIn k v = .error e) :
    e = .typeError := by
  cases v <;> simp [pyIn] at h <;> exact h.symm

/-- The key scan fails only with `TypeError`. -/
theorem allKeysIn_error (ks : List String) (v : JValue) (e : PErr)
    (h : allKeysIn ks v = .error e) : e = .typeError := by
  induction ks with
  | nil => simp [allKeysIn] at h
  | cons k ks ih =>
    unfold allKeysIn at h
    split at h
    · rename_i e2 heq
      simp only [Except.error.injEq] at h
      subst h
      exact pyIn_error k v _ heq
    · exact ih h
    · simp at h

/-- A `ValueError` from the per-condition loop pinpoints an entry whose
sub-field scan evaluated to `false`. -/
theorem checkConditions_valueError (xs : List JValue) (m : String)
    (h : checkConditions xs = .error (.valueError m)) :
    ∃ c, c ∈ xs ∧ allKeysIn conditionKeys c = .ok false := by
  induction xs with
  | nil => simp [checkConditions] at h
  | cons c cs ih =>
    unfold checkConditions at h
    split at h
    · rename_i e2 heq
      have h2 : e2 = PErr.typeError := allKeysIn_error _ _ _ heq
      simp only [Except.error.injEq] at h
      rw [h2] at h
      simp at h
    · rename_i heq
      obtain ⟨c', hc', hf⟩ := ih h
      exact ⟨c', List.mem_cons_of_mem _ hc', hf⟩
    · rename_i heq
      exact ⟨c, List.mem_cons_self c cs, heq⟩

/-- The master fallback returns exactly one of the three variants. -/
theorem fallback_cases (data : PatientInput) (now : String) :
    fallback_analysis data now = extreme_emergency_fallback data now ∨
    fallback_analysis data now = gastro_safety_fallback data now ∨
    fallback_analysis data now = safe_routine_fallback data now := by
  by_cases h1 : emergency_keywords.any (fun k => pyContains (pyLower data.symptoms) k) = true
  · left; simp [fallback_analysis, h1]
  · by_cases h2 : (gastro_keywords.any (fun k => pyContains (pyLower data.symptoms) k) &&
        dehydration_keywords.any (fun k => pyContains (pyLower data.symptoms) k)) = true
    · right; left; simp [fallback_analysis, h1, h2]
    · right; right; simp [fallback_analysis, h1, h2]

/-- Urgency of the gastro variant when a severe-sign keyword is present. -/
theorem gastro_urgency_severe (data : PatientInput) (now : String)
    (h : severe_sign_keywords.any (fun k => pyContains (pyLower data.symptoms) k) = true) :
    (gastro_safety_fallback data now).urgency = "urgent" := by
  simp [gastro_safety_fallback, h]

/-- Urgency of the gastro variant when no severe-sign keyword is present. -/
theorem gastro_urgency_mild (data : PatientInput) (now : String)
    (h : severe_sign_keywords.any (fun k => pyContains (pyLower data.symptoms) k) = false) :
    (gastro_safety_fallback data now).urgency = "soon" := by
  simp [gastro_safety_fallback, h]

/-- Every fallback variant carries urgency `urgent` or `soon`. -/
theorem fallback_urgency_mem (data : PatientInput) (now : String) :
    (fallback_analysis data now).urgency = "urgent" ∨
    (fallback_analysis data now).urgency = "soon" := by
  rcases fallback_cases data now with h | h | h
  · rw [h]; left; rfl
  · rw [h]
    by_cases hs : severe_sign_keywords.any (fun k => pyContains (pyLower data.symptoms) k) = true
    · left; exact gastro_urgency_severe data now hs
    · right; exact gastro_urgency_mild data now (by simpa using hs)
  · rw [h]; right; rfl

/-- Every fallback variant carries a true disclaimer. -/
theorem fallback_disclaimer (data : PatientInput) (now : String) :
    (fallback_analysis data now).disclaimer = true := by
  rcases fallback_cases data now with h | h | h <;> rw [h] <;> rfl

/-- The coerced urgency is always one of the three enum values. -/
theorem coerceUrgency_mem (v : Option JValue) :
    coerceUrgency v = "urgent" ∨ coerceUrgency v = "soon" ∨ coerceUrgency v = "routine" := by
  cases v with
  | none => right; right; rfl
  | some jv =>
    cases jv with
    | jstr s =>
      by_cases h : (s == "urgent" || s == "soon" || s == "routine") = true
      · have hs : (s = "urgent" ∨ s = "soon") ∨ s = "routine" := by simpa using h
        simp only [coerceUrgency, h, if_true]
        tauto
      · right; right; simp [coerceUrgency, h]
    | jnull => right; right; rfl
    | jbool b => right; right; rfl
    | jnum n => right; right; rfl
    | jarr xs => right; right; rfl
    | jobj kvs => right; right; rfl

/-- An out-of-enum urgency value is coerced to `routine`. -/
theorem coerceUrgency_default (v : Option JValue) (h : isValidUrgency v = false) :
    coerceUrgency v = "routine" := by
  cases v with
  | none => rfl
  | some jv =>
    cases jv with
    | jstr s =>
      simp only [isValidUrgency] at h
      simp [coerceUrgency, h]
    | jnull => rfl
    | jbool b => rfl
    | jnum n => rfl
    | jarr xs => rfl
    | jobj kvs => rfl

/-- A successful validation comes from a JSON object and assembles exactly
the model result record. -/
theorem tryValidate_ok (parsed : JValue) (data : PatientInput) (now env : String)
    (r : AnalysisResult) (h : tryValidate parsed data now env = .ok r) :
    ∃ kvs, parsed = .jobj kvs ∧ r = mkModelResult kvs data now env := by
  cases parsed with
  | jobj kvs =>
    refine ⟨kvs, rfl, ?_⟩
    unfold tryValidate at h
    split at h
    · simp at h
    · simp at h
    · dsimp only at h
      split at h
      · simp at h
      · simp only [Except.ok.injEq] at h
        exact h.symm
  | jnull => unfold tryValidate at h; split at h <;> simp_all
  | jbool b => unfold tryValidate at h; split at h <;> simp_all
  | jnum n => unfold tryValidate at h; split at h <;> simp_all
  | jarr xs => unfold tryValidate at h; split at h <;> simp_all
  | jstr s => unfold tryValidate at h; split at h <;> simp_all

/-- The analyze operation either falls back or returns a validated model
result with the generation outcome pinned down. -/
theorem analyze_cases (outcome : GenOutcome) (data : PatientInput) (now env : String) :
    analyze_symptoms outcome data now env = fallback_analysis data now ∨
    ∃ kvs, outcome = GenOutcome.success (some (JValue.jobj kvs)) ∧
      tryValidate (JValue.jobj kvs) data now env = Except.ok (mkModelResult kvs data now env) ∧
      analyze_symptoms outcome data now env = mkModelResult kvs data now env := by
  cases outcome with
  | failure m => left; rfl
  | success raw =>
    cases raw with
    | none => left; rfl
    | some parsed =>
      cases htv : tryValidate parsed data now env with
      | ok r =>
        obtain ⟨kvs, hp, hr⟩ := tryValidate_ok parsed data now env r htv
        subst hp; subst hr
        right
        exact ⟨kvs, rfl, htv, by simp [analyze_symptoms, parse_llm_response, htv]⟩
      | error e =>
        left
        cases e <;> simp [analyze_symptoms, parse_llm_response, htv]

/-- The needle begins any list formed by appending to it. -/
theorem beginsWith_append (n t : List Char) : beginsWith n (n ++ t) = true := by
  induction n with
  | nil => rfl
  | cons a as ih => simp [beginsWith, ih]

/-- The sublist scan finds the needle wherever it occurs. -/
theorem hasSub_append (n s t : List Char) : hasSub n (s ++ n ++ t) = true := by
  induction s with
  | nil =>
    rw [List.nil_append, hasSub.eq_def]
    simp [beginsWith_append]
  | cons c s' ih =>
    have ih' : hasSub n (s' ++ (n ++ t)) = true := by
      rw [← List.append_assoc]; exact ih
    rw [List.cons_append, List.cons_append, hasSub.eq_def]
    simp [ih']

/-- C1: any patient input whose lower-cased symptoms text contains an
emergency keyword makes the fallback classifier return the extreme-emergency
variant — one fixed condition, urgency `urgent`, and the fixed six-item
recommendation list beginning with calling emergency services — regardless of
all other input fields, hence also when gastro and dehydration keywords are
present (rule 1 precedes rule 2). -/
theorem emergency_fallback_spec (data : PatientInput) (now : String)
    (h : emergency_keywords.any (fun k => pyContains (pyLower data.symptoms) k) = true) :
    fallback_analysis data now = extreme_emergency_fallback data now ∧
    (fallback_analysis data now).conditions = JValue.jarr [extreme_condition] ∧
    (fallback_analysis data now).urgency = "urgent" ∧
    (fallback_analysis data now).recommendations =
      JValue.jarr (extreme_recommendations.map JValue.jstr) ∧
    extreme_recommendations.length = 6 ∧
    extreme_recommendations.head? = some "🚨 Call emergency services (911/112) immediately" := by
  have hr : fallback_analysis data now = extreme_emergency_fallback data now := by
    simp [fallback_analysis, h]
  exact ⟨hr, by rw [hr]; rfl, by rw [hr]; rfl, by rw [hr]; rfl, rfl, rfl⟩

/-- Witness for C1 at a concrete input that also contains gastro and
dehydration keywords. -/
theorem emergency_fallback_spec_witness :
    emergency_keywords.any
      (fun k => pyContains (pyLower "chest pain with vomiting and feeling dizzy") k) = true ∧
    fallback_analysis { symptoms := "chest pain with vomiting and feeling dizzy" }
        "2025-01-01T00:00:00" =
      extreme_emergency_fallback { symptoms := "chest pain with vomiting and feeling dizzy" }
        "2025-01-01T00:00:00" :=
  ⟨by decide,
   (emergency_fallback_spec { symptoms := "chest pain with vomiting and feeling dizzy" }
      "2025-01-01T00:00:00" (by decide)).1⟩

/-- C2: a symptoms text with at least one gastro keyword and at least one
dehydration keyword but no emergency keyword yields the gastro variant with
its fixed four conditions and fixed seven recommendations; urgency is `soon`
without a severe-sign keyword and `urgent` with one, conditions and
recommendations unchanged either way. -/
theorem gastro_fallback_spec (data : PatientInput) (now : String)
    (hg : gastro_keywords.any (fun k => pyContains (pyLower data.symptoms) k) = true)
    (hd : dehydration_keywords.any (fun k => pyContains (pyLower data.symptoms) k) = true)
    (he : emergency_keywords.any (fun k => pyContains (pyLower data.symptoms) k) = false) :
    fallback_analysis data now = gastro_safety_fallback data now ∧
    (fallback_analysis data now).conditions = JValue.jarr gastro_conditions ∧
    gastro_conditions.length = 4 ∧
    (fallback_analysis data now).recommendations =
      JValue.jarr (gastro_recommendations.map JValue.jstr) ∧
    gastro_recommendations.length = 7 ∧
    (severe_sign_keywords.any (fun k => pyContains (pyLower data.symptoms) k) = false →
      (fallback_analysis data now).urgency = "soon") ∧
    (severe_sign_keywords.any (fun k => pyContains (pyLower data.symptoms) k) = true →
      (fallback_analysis data now).urgency = "urgent") := by
  have hr : fallback_analysis data now = gastro_safety_fallback data now := by
    simp [fallback_analysis, he, hg, hd]
  refine ⟨hr, by rw [hr]; rfl, rfl, by rw [hr]; rfl, rfl, ?_, ?_⟩
  · intro hs; rw [hr]; exact gastro_urgency_mild data now hs
  · intro hs; rw [hr]; exact gastro_urgency_severe data now hs

/-- Witness for C2 at a concrete gastro-plus-dehydration input with no
severe-sign keyword. -/
theorem gastro_fallback_spec_witness :
    gastro_keywords.any (fun k => pyContains (pyLower "diarrhea and feeling dizzy") k) = true ∧
    dehydration_keywords.any
      (fun k => pyContains (pyLower "diarrhea and feeling dizzy") k) = true ∧
    emergency_keywords.any
      (fun k => pyContains (pyLower "diarrhea and feeling dizzy") k) = false ∧
    fallback_analysis { symptoms := "diarrhea and feeling dizzy" } "2025-01-01T00:00:00" =
      gastro_safety_fallback { symptoms := "diarrhea and feeling dizzy" }
        "2025-01-01T00:00:00" ∧
    (fallback_analysis { symptoms := "diarrhea and feeling dizzy" }
        "2025-01-01T00:00:00").urgency = "soon" :=
  ⟨by decide, by decide, by decide,
   (gastro_fallback_spec { symptoms := "diarrhea and feeling dizzy" } "2025-01-01T00:00:00"
      (by decide) (by decide) (by decide)).1,
   (gastro_fallback_spec { symptoms := "diarrhea and feeling dizzy" } "2025-01-01T00:00:00"
      (by decide) (by decide) (by decide)).2.2.2.2.2.1 (by decide)⟩

/-- C3: a symptoms text containing no emergency keyword and failing the
gastro-and-dehydration conjunction yields the generic routine variant — one
fixed condition naming professional evaluation, urgency `soon`, and the fixed
six-item general-advice recommendation list. -/
theorem routine_fallback_spec (data : PatientInput) (now : String)
    (he : emergency_keywords.any (fun k => pyContains (pyLower data.symptoms) k) = false)
    (hgd : (gastro_keywords.any (fun k => pyContains (pyLower data.symptoms) k) &&
            dehydration_keywords.any (fun k => pyContains (pyLower data.symptoms) k)) = false) :
    fallback_analysis data now = safe_routine_fallback data now ∧
    (fallback_analysis data now).conditions = JValue.jarr [routine_condition] ∧
    (fallback_analysis data now).urgency = "soon" ∧
    (fallback_analysis data now).recommendations =
      JValue.jarr (routine_recommendations.map JValue.jstr) ∧
    routine_recommendations.length = 6 := by
  have hr : fallback_analysis data now = safe_routine_fallback data now := by
    simp [fallback_analysis, he, hgd]
  exact ⟨hr, by rw [hr]; rfl, by rw [hr]; rfl, by rw [hr]; rfl, rfl⟩

/-- Witness for C3 at a concrete input matching neither rule. -/
theorem routine_fallback_spec_witness :
    emergency_keywords.any
      (fun k => pyContains (pyLower "mild sore throat and runny nose") k) = false ∧
    (gastro_keywords.any (fun k => pyContains (pyLower "mild sore throat and runny nose") k) &&
     dehydration_keywords.any
       (fun k => pyContains (pyLower "mild sore throat and runny nose") k)) = false ∧
    fallback_analysis { symptoms := "mild sore throat and runny nose" } "2025-01-01T00:00:00" =
      safe_routine_fallback { symptoms := "mild sore throat and runny nose" }
        "2025-01-01T00:00:00" :=
  ⟨by decide, by decide,
   (routine_fallback_spec { symptoms := "mild sore throat and runny nose" }
      "2025-01-01T00:00:00" (by decide) (by decide)).1⟩

/-- C4: for every patient input with a non-empty symptoms string, the analyze
operation is total over every generation outcome — failure, unparseable text,
or any parsed value — and always returns a well-formed result record produced
either by the validator or by one of the fallback variants. -/
theorem analyze_total_spec (outcome : GenOutcome) (data : PatientInput) (now env : String)
    (hs : data.symptoms ≠ "") :
    (∃ kvs, outcome = GenOutcome.success (some (JValue.jobj kvs)) ∧
        tryValidate (JValue.jobj kvs) data now env =
          Except.ok (mkModelResult kvs data now env) ∧
        analyze_symptoms outcome data now env = mkModelResult kvs data now env) ∨
    analyze_symptoms outcome data now env = extreme_emergency_fallback data now ∨
    analyze_symptoms outcome data now env = gastro_safety_fallback data now ∨
    analyze_symptoms outcome data now env = safe_routine_fallback data now := by
  rcases analyze_cases outcome data now env with h | h
  · right
    rw [h]
    exact fallback_cases data now
  · left
    exact h

/-- Witness for C4 at a failing generation outcome. -/
theorem analyze_total_spec_witness :
    ({ symptoms := "persistent headache" } : PatientInput).symptoms ≠ "" ∧
    ((∃ kvs, GenOutcome.failure "quota exceeded" =
          GenOutcome.success (some (JValue.jobj kvs)) ∧
        tryValidate (JValue.jobj kvs) { symptoms := "persistent headache" }
            "2025-01-01T00:00:00" "Google Gemini" =
          Except.ok (mkModelResult kvs { symptoms := "persistent headache" }
            "2025-01-01T00:00:00" "Google Gemini") ∧
        analyze_symptoms (GenOutcome.failure "quota exceeded")
            { symptoms := "persistent headache" } "2025-01-01T00:00:00" "Google Gemini" =
          mkModelResult kvs { symptoms := "persistent headache" }
            "2025-01-01T00:00:00" "Google Gemini") ∨
      analyze_symptoms (GenOutcome.failure "quota exceeded")
          { symptoms := "persistent headache" } "2025-01-01T00:00:00" "Google Gemini" =
        extreme_emergency_fallback { symptoms := "persistent headache" }
          "2025-01-01T00:00:00" ∨
      analyze_symptoms (GenOutcome.failure "quota exceeded")
          { symptoms := "persistent headache" } "2025-01-01T00:00:00" "Google Gemini" =
        gastro_safety_fallback { symptoms := "persistent headache" } "2025-01-01T00:00:00" ∨
      analyze_symptoms (GenOutcome.failure "quota exceeded")
          { symptoms := "persistent headache" } "2025-01-01T00:00:00" "Google Gemini" =
        safe_routine_fallback { symptoms := "persistent headache" } "2025-01-01T00:00:00") :=
  ⟨by decide,
   analyze_total_spec (GenOutcome.failure "quota exceeded")
     { symptoms := "persistent headache" } "2025-01-01T00:00:00" "Google Gemini" (by decide)⟩

/-- C5: every result from any path carries urgency in the three-element enum
and a true disclaimer, and a validated model response whose urgency value is
outside the enum is silently rewritten to `routine` by the validator. -/
theorem urgency_invariant_spec :
    (∀ (outcome : GenOutcome) (data : PatientInput) (now env : String),
      ((analyze_symptoms outcome data now env).urgency = "urgent" ∨
       (analyze_symptoms outcome data now env).urgency = "soon" ∨
       (analyze_symptoms outcome data now env).urgency = "routine") ∧
      (analyze_symptoms outcome data now env).disclaimer = true) ∧
    (∀ (kvs : List (String × JValue)) (data : PatientInput) (now env : String)
       (r : AnalysisResult),
      tryValidate (JValue.jobj kvs) data now env = Except.ok r →
      isValidUrgency (lookupJ kvs "urgency") = false →
      r.urgency = "routine") := by
  constructor
  · intro outcome data now env
    rcases analyze_cases outcome data now env with h | ⟨kvs, _, _, h⟩
    · rw [h]
      refine ⟨?_, fallback_disclaimer data now⟩
      rcases fallback_urgency_mem data now with h2 | h2
      · left; exact h2
      · right; left; exact h2
    · rw [h]
      exact ⟨coerceUrgency_mem _, rfl⟩
  · intro kvs data now env r htv hv
    obtain ⟨kvs', hk, hr⟩ := tryValidate_ok _ data now env r htv
    injection hk with hk2
    subst hk2
    rw [hr]
    exact coerceUrgency_default _ hv

/-- Witness for C5 at a structurally valid response with urgency value
`critical`. -/
theorem urgency_invariant_spec_witness :
    tryValidate (JValue.jobj [("conditions", JValue.jarr []),
        ("urgency", JValue.jstr "critical"),
        ("recommendations", JValue.jarr [JValue.jstr "rest"])])
      { symptoms := "tired all day" } "2025-01-01T00:00:00" "Google Gemini" =
      Except.ok (mkModelResult [("conditions", JValue.jarr []),
        ("urgency", JValue.jstr "critical"),
        ("recommendations", JValue.jarr [JValue.jstr "rest"])]
        { symptoms := "tired all day" } "2025-01-01T00:00:00" "Google Gemini") ∧
    isValidUrgency (lookupJ [("conditions", JValue.jarr []),
        ("urgency", JValue.jstr "critical"),
        ("recommendations", JValue.jarr [JValue.jstr "rest"])] "urgency") = false ∧
    (mkModelResult [("conditions", JValue.jarr []),
        ("urgency", JValue.jstr "critical"),
        ("recommendations", JValue.jarr [JValue.jstr "rest"])]
        { symptoms := "tired all day" } "2025-01-01T00:00:00" "Google Gemini").urgency =
      "routine" :=
  ⟨rfl, by decide,
   urgency_invariant_spec.2 [("conditions", JValue.jarr []),
       ("urgency", JValue.jstr "critical"),
       ("recommendations", JValue.jarr [JValue.jstr "rest"])]
     { symptoms := "tired all day" } "2025-01-01T00:00:00" "Google Gemini"
     (mkModelResult [("conditions", JValue.jarr []),
       ("urgency", JValue.jstr "critical"),
       ("recommendations", JValue.jarr [JValue.jstr "rest"])]
       { symptoms := "tired all day" } "2025-01-01T00:00:00" "Google Gemini")
     rfl (by decide)⟩

/-- C6: a parsed response missing one of the three required top-level fields
makes the validator fail with the missing-fields shape error; the error is
converted into a fallback result and no exception escapes the analyze
operation. -/
theorem missing_field_fallback_spec (kvs : List (String × JValue))
    (data : PatientInput) (now env : String)
    (h : topLevelKeys.all (fun k => kvs.any (fun p => p.fst == k)) = false) :
    tryValidate (JValue.jobj kvs) data now env =
      Except.error (PErr.valueError missingFieldsMsg) ∧
    parse_llm_response (some (JValue.jobj kvs)) data now env =
      Except.ok (fallback_analysis data now) ∧
    analyze_symptoms (GenOutcome.success (some (JValue.jobj kvs))) data now env =
      fallback_analysis data now := by
  have h1 : tryValidate (JValue.jobj kvs) data now env =
      Except.error (PErr.valueError missingFieldsMsg) := by
    unfold tryValidate
    rw [allKeysIn_jobj, h]
  refine ⟨h1, ?_, ?_⟩
  · simp [parse_llm_response, h1]
  · simp [analyze_symptoms, parse_llm_response, h1]

/-- Witness for C6 at a response with no `recommendations` field. -/
theorem missing_field_fallback_spec_witness :
    topLevelKeys.all (fun k =>
      [("conditions", JValue.jarr []), ("urgency", JValue.jstr "soon")].any
        (fun p => p.fst == k)) = false ∧
    analyze_symptoms
        (GenOutcome.success (some (JValue.jobj
          [("conditions", JValue.jarr []), ("urgency", JValue.jstr "soon")])))
        { symptoms := "stomach ache for two days" } "2025-01-01T00:00:00" "Google Gemini" =
      fallback_analysis { symptoms := "stomach ache for two days" } "2025-01-01T00:00:00" :=
  ⟨by decide,
   (missing_field_fallback_spec
      [("conditions", JValue.jarr []), ("urgency", JValue.jstr "soon")]
      { symptoms := "stomach ache for two days" } "2025-01-01T00:00:00" "Google Gemini"
      (by decide)).2.2⟩

/-- C7 counterexample: the gastro fallback variant carries four conditions,
not exactly one, and a structurally valid model response with one condition
and one recommendation passes the validator unchanged, so neither the claimed
fallback count nor the claimed 2-to-4 and 5-to-7 model bounds hold. -/
theorem fallback_counts_cex :
    jlen (fallback_analysis { symptoms := "vomiting and dizzy since morning" }
        "2025-01-01T00:00:00").conditions = some 4 ∧
    jlen (fallback_analysis { symptoms := "vomiting and dizzy since morning" }
        "2025-01-01T00:00:00").conditions ≠ some 1 ∧
    tryValidate (JValue.jobj oneCondResponse) { symptoms := "runny nose all week" }
        "2025-01-01T00:00:00" "Google Gemini" =
      Except.ok (mkModelResult oneCondResponse { symptoms := "runny nose all week" }
        "2025-01-01T00:00:00" "Google Gemini") ∧
    jlen (mkModelResult oneCondResponse { symptoms := "runny nose all week" }
        "2025-01-01T00:00:00" "Google Gemini").conditions = some 1 ∧
    jlen (mkModelResult oneCondResponse { symptoms := "runny nose all week" }
        "2025-01-01T00:00:00" "Google Gemini").recommendations = some 1 :=
  ⟨by decide, by decide, rfl, by decide, by decide⟩

/-- C7 amended: the validator does not enforce the 2-to-4 and 5-to-7 counts —
a model-validated result carries the response's conditions and
recommendations values unchanged — and each fallback variant has a fixed
count: extreme-emergency 1 condition and 6 recommendations, gastro 4
conditions and 7 recommendations, routine 1 condition and 6 recommendations. -/
theorem fallback_counts_amended :
    (∀ (data : PatientInput) (now : String),
      jlen (extreme_emergency_fallback data now).conditions = some 1 ∧
      jlen (extreme_emergency_fallback data now).recommendations = some 6 ∧
      jlen (gastro_safety_fallback data now).conditions = some 4 ∧
      jlen (gastro_safety_fallback data now).recommendations = some 7 ∧
      jlen (safe_routine_fallback data now).conditions = some 1 ∧
      jlen (safe_routine_fallback data now).recommendations = some 6) ∧
    (∀ (kvs : List (String × JValue)) (data : PatientInput) (now env : String)
       (r : AnalysisResult),
      tryValidate (JValue.jobj kvs) data now env = Except.ok r →
      r.conditions = (lookupJ kvs "conditions").getD (JValue.jarr []) ∧
      r.recommendations = (lookupJ kvs "recommendations").getD (JValue.jarr [])) := by
  constructor
  · intro data now
    exact ⟨rfl, rfl, rfl, rfl, rfl, rfl⟩
  · intro kvs data now env r htv
    obtain ⟨kvs', hk, hr⟩ := tryValidate_ok _ data now env r htv
    injection hk with hk2
    subst hk2
    rw [hr]
    exact ⟨rfl, rfl⟩

/-- Witness for the amended C7 at the concrete one-condition response. -/
theorem fallback_counts_amended_witness :
    tryValidate (JValue.jobj oneCondResponse) { symptoms := "runny nose" }
      "2025-01-01T00:00:00" "Google Gemini" =
      Except.ok (mkModelResult oneCondResponse { symptoms := "runny nose" }
        "2025-01-01T00:00:00" "Google Gemini") ∧
    (mkModelResult oneCondResponse { symptoms := "runny nose" } "2025-01-01T00:00:00"
        "Google Gemini").conditions =
      (lookupJ oneCondResponse "conditions").getD (JValue.jarr []) :=
  ⟨rfl, (fallback_counts_amended.2 oneCondResponse { symptoms := "runny nose" }
      "2025-01-01T00:00:00" "Google Gemini"
      (mkModelResult oneCondResponse { symptoms := "runny nose" } "2025-01-01T00:00:00"
        "Google Gemini") rfl).1⟩

/-- C8 counterexample: two invocations of the fallback classifier on the same
input at different clock instants differ in the `timestamp` field, so the two
records are not byte-identical in every field. -/
theorem classifier_two_run_cex :
    fallback_analysis { symptoms := "mild headache" } "2025-01-01T00:00:00" ≠
      fallback_analysis { symptoms := "mild headache" } "2025-01-01T00:00:01" := by
  intro h
  have ht := congrArg AnalysisResult.timestamp h
  exact absurd ht (by decide)

/-- C8 amended: two invocations of the fallback classifier on identical input
yield records identical in every field except `timestamp`, which carries each
invocation's clock reading (so invocations at the same instant are
byte-identical). -/
theorem classifier_two_run_amended (data : PatientInput) (t1 t2 : String) :
    eqExceptTimestamp (fallback_analysis data t1) (fallback_analysis data t2) := by
  by_cases h1 : emergency_keywords.any (fun k => pyContains (pyLower data.symptoms) k) = true
  · have e1 : fallback_analysis data t1 = extreme_emergency_fallback data t1 := by
      simp [fallback_analysis, h1]
    have e2 : fallback_analysis data t2 = extreme_emergency_fallback data t2 := by
      simp [fallback_analysis, h1]
    rw [e1, e2]
    exact ⟨rfl, rfl, rfl, rfl, rfl, rfl, rfl⟩
  · by_cases h2 : (gastro_keywords.any (fun k => pyContains (pyLower data.symptoms) k) &&
        dehydration_keywords.any (fun k => pyContains (pyLower data.symptoms) k)) = true
    · have e1 : fallback_analysis data t1 = gastro_safety_fallback data t1 := by
        simp [fallback_analysis, h1, h2]
      have e2 : fallback_analysis data t2 = gastro_safety_fallback data t2 := by
        simp [fallback_analysis, h1, h2]
      rw [e1, e2]
      exact ⟨rfl, rfl, rfl, rfl, rfl, rfl, rfl⟩
    · have e1 : fallback_analysis data t1 = safe_routine_fallback data t1 := by
        simp [fallback_analysis, h1, h2]
      have e2 : fallback_analysis data t2 = safe_routine_fallback data t2 := by
        simp [fallback_analysis, h1, h2]
      rw [e1, e2]
      exact ⟨rfl, rfl, rfl, rfl, rfl, rfl, rfl⟩

/-- C9: keyword matching is plain substring containment on the lower-cased
text, not word- or phrase-boundary matching: any occurrence of an emergency
keyword, including one embedded in a longer word (`heatstroke` contains
`stroke`) or in a negating phrase (`no chest pain` contains `chest pain`),
selects the extreme-emergency variant; the gastro, dehydration and
severe-sign scans match embedded occurrences the same way. -/
theorem substring_matching_spec :
    (∀ (data : PatientInput) (now : String) (k : String), k ∈ emergency_keywords →
      (∃ s t, (pyLower data.symptoms).data = s ++ k.data ++ t) →
      fallback_analysis data now = extreme_emergency_fallback data now) ∧
    (∀ now, fallback_analysis { symptoms := "heatstroke" } now =
      extreme_emergency_fallback { symptoms := "heatstroke" } now) ∧
    (∀ now, fallback_analysis { symptoms := "no chest pain" } now =
      extreme_emergency_fallback { symptoms := "no chest pain" } now) ∧
    (∀ now, fallback_analysis { symptoms := "vomitingy dizzyish bloodwork" } now =
      gastro_safety_fallback { symptoms := "vomitingy dizzyish bloodwork" } now ∧
      (fallback_analysis { symptoms := "vomitingy dizzyish bloodwork" } now).urgency =
        "urgent") := by
  refine ⟨?_, fun now => rfl, fun now => rfl, fun now => ⟨rfl, rfl⟩⟩
  rintro data now k hk ⟨s, t, hst⟩
  have hc : pyContains (pyLower data.symptoms) k = true := by
    unfold pyContains
    rw [hst]
    exact hasSub_append _ _ _
  have h : emergency_keywords.any (fun q => pyContains (pyLower data.symptoms) q) = true :=
    List.any_eq_true.mpr ⟨k, hk, hc⟩
  simp [fallback_analysis, h]

/-- Witness for C9: the keyword `stroke` occurs embedded inside the single
word `heatstroke`. -/
theorem substring_matching_spec_witness :
    "stroke" ∈ emergency_keywords ∧
    (pyLower ({ symptoms := "heatstroke" } : PatientInput).symptoms).data =
      "heat".data ++ "stroke".data ++ ([] : List Char) ∧
    fallback_analysis { symptoms := "heatstroke" } "2025-01-01T00:00:00" =
      extreme_emergency_fallback { symptoms := "heatstroke" } "2025-01-01T00:00:00" :=
  ⟨by decide, by decide,
   substring_matching_spec.1 { symptoms := "heatstroke" } "2025-01-01T00:00:00" "stroke"
     (by decide) ⟨"heat".data, ([] : List Char), by decide⟩⟩

/-- C10: the per-condition shape error arises only from a non-empty
conditions list containing an entry whose sub-field scan evaluated false;
when the conditions value is an empty list or not a list at all, the
per-condition check is skipped and the response is returned as a
model-tagged result carrying that conditions value unchanged. -/
theorem condition_check_skip_spec :
    (∀ (kvs : List (String × JValue)) (data : PatientInput) (now env : String),
      tryValidate (JValue.jobj kvs) data now env =
        Except.error (PErr.valueError invalidCondMsg) →
      ∃ xs, lookupJ kvs "conditions" = some (JValue.jarr xs) ∧ xs ≠ [] ∧
        ∃ c, c ∈ xs ∧ allKeysIn conditionKeys c = Except.ok false) ∧
    (∀ (kvs : List (String × JValue)) (data : PatientInput) (now env : String) (v : JValue),
      topLevelKeys.all (fun k => kvs.any (fun p => p.fst == k)) = true →
      lookupJ kvs "conditions" = some v →
      isNonemptyArr v = false →
      tryValidate (JValue.jobj kvs) data now env =
        Except.ok (mkModelResult kvs data now env) ∧
      (mkModelResult kvs data now env).conditions = v ∧
      (mkModelResult kvs data now env).ai_model = env) := by
  constructor
  · intro kvs data now env h
    unfold tryValidate at h
    split at h
    · rename_i e2 heq
      have h3 := allKeysIn_error _ _ _ heq
      simp only [Except.error.injEq] at h
      rw [h3] at h
      simp at h
    · simp only [Except.error.injEq, PErr.valueError.injEq] at h
      exact absurd h (by decide)
    · dsimp only at h
      split at h
      · rename_i e2 heq
        simp only [Except.error.injEq] at h
        subst h
        unfold condCheckStep at heq
        split at heq
        · rename_i c cs hl
          obtain ⟨c2, hc2, hf⟩ := checkConditions_valueError _ _ heq
          exact ⟨c :: cs, hl, by simp, c2, hc2, hf⟩
        · simp at heq
      · simp at h
  · intro kvs data now env v hall hl hv
    have hstep : condCheckStep (lookupJ kvs "conditions") = Except.ok () := by
      rw [hl]
      cases v with
      | jarr xs =>
        cases xs with
        | nil => rfl
        | cons c cs => simp [isNonemptyArr] at hv
      | jnull => rfl
      | jbool b => rfl
      | jnum n => rfl
      | jstr s => rfl
      | jobj o => rfl
    refine ⟨?_, ?_, rfl⟩
    · unfold tryValidate
      rw [allKeysIn_jobj, hall]
      dsimp only
      rw [hstep]
    · show (lookupJ kvs "conditions").getD (JValue.jarr []) = v
      rw [hl]
      rfl

/-- Witness for C10: a response whose conditions value is the string `N/A`
passes validation and carries it through unchanged. -/
theorem condition_check_skip_spec_witness :
    topLevelKeys.all (fun k =>
      [("conditions", JValue.jstr "N/A"), ("urgency", JValue.jstr "soon"),
       ("recommendations", JValue.jarr [])].any (fun p => p.fst == k)) = true ∧
    lookupJ [("conditions", JValue.jstr "N/A"), ("urgency", JValue.jstr "soon"),
      ("recommendations", JValue.jarr [])] "conditions" = some (JValue.jstr "N/A") ∧
    isNonemptyArr (JValue.jstr "N/A") = false ∧
    tryValidate (JValue.jobj [("conditions", JValue.jstr "N/A"),
        ("urgency", JValue.jstr "soon"), ("recommendations", JValue.jarr [])])
      { symptoms := "itchy skin" } "2025-01-01T00:00:00" "Google Gemini" =
      Except.ok (mkModelResult [("conditions", JValue.jstr "N/A"),
        ("urgency", JValue.jstr "soon"), ("recommendations", JValue.jarr [])]
        { symptoms := "itchy skin" } "2025-01-01T00:00:00" "Google Gemini") ∧
    (mkModelResult [("conditions", JValue.jstr "N/A"), ("urgency", JValue.jstr "soon"),
        ("recommendations", JValue.jarr [])] { symptoms := "itchy skin" }
        "2025-01-01T00:00:00" "Google Gemini").conditions = JValue.jstr "N/A" :=
  ⟨by decide, rfl, rfl,
   (condition_check_skip_spec.2 [("conditions", JValue.jstr "N/A"),
       ("urgency", JValue.jstr "soon"), ("recommendations", JValue.jarr [])]
      { symptoms := "itchy skin" } "2025-01-01T00:00:00" "Google Gemini"
      (JValue.jstr "N/A") (by decide) rfl rfl).1,
   (condition_check_skip_spec.2 [("conditions", JValue.jstr "N/A"),
       ("urgency", JValue.jstr "soon"), ("recommendations", JValue.jarr [])]
      { symptoms := "itchy skin" } "2025-01-01T00:00:00" "Google Gemini"
      (JValue.jstr "N/A") (by decide) rfl rfl).2.1⟩
